import Mathlib

/-
Verification of the stroke-backend risk-scoring and data-access layer.

Shallow embedding of the relevant Python code:
  app/services/patient_service.py  (PatientService)
  app/models/patient.py            (PatientRecord)
  app/models/patient_sqllite.py    (PatientSQLite columns, to_dict)
  app/routes/auth.py               (register, login)
  app/routes/patients.py           (self_register_patient, update route filter)
  app/routes/appointments.py       (book, cancel, reschedule)
  app/services/appointment_service.py (AppointmentMongoDB)
  app/utils/security.py            (sanitize_input, validators, log_security_event)
  app/utils/database.py            (UserOperations)
  app/models/security_log.py       (SecurityLog.log_event)

Numeric modelling: Python ints are Int, Python floats that only ever face
comparisons (glucose, bmi) are Rat, timestamps are Int (abstract clock).
-/

/-- A patient-attribute dictionary as consumed by calculate_stroke_risk.
Each field is optional, mirroring dict.get with a default. -/
structure PatientData where
  age : Option Int := none
  hypertension : Option Int := none
  heart_disease : Option Int := none
  avg_glucose_level : Option Rat := none
  bmi : Option Rat := none
  smoking_status : Option String := none
  stroke : Option Int := none
deriving DecidableEq

/-- PatientService.calculate_stroke_risk (patient_service.py lines 192-220;
the identical code appears in patient.py lines 209-249).  The Python code
accumulates risk_score with independent if/elif blocks; the accumulation is
written as the equivalent sum, in source order, and min caps at 100. -/
def calculate_stroke_risk (d : PatientData) : Int :=
  let age := d.age.getD 0
  let glucose_level := d.avg_glucose_level.getD 0
  let bmi := d.bmi.getD 0
  let smoking_status := d.smoking_status.getD "Unknown"
  let risk_score : Int :=
    (if age > 60 then 30 else if age > 45 then 15 else 0)
    + (if d.hypertension.getD 0 = 1 then 25 else 0)
    + (if d.heart_disease.getD 0 = 1 then 20 else 0)
    + (if glucose_level > 150 then 15 else if glucose_level > 120 then 8 else 0)
    + (if bmi > 30 then 10 else if bmi > 25 then 5 else 0)
    + (if smoking_status = "Smokes" then 10
       else if smoking_status = "Formerly smoked" then 5 else 0)
    + (if d.stroke.getD 0 = 1 then 30 else 0)
  min risk_score 100

/-- PatientService.get_risk_level (patient_service.py lines 222-228),
with the thresholds written as literals as in the source. -/
def get_risk_level (risk_score : Int) : String :=
  if risk_score ≥ 50 then "high"
  else if risk_score ≥ 25 then "medium"
  else "low"

/-- Config.STROKE_RISK_THRESHOLD_HIGH (config.py line 89). -/
def STROKE_RISK_THRESHOLD_HIGH : Int := 50

/-- Config.STROKE_RISK_THRESHOLD_MEDIUM (config.py line 90). -/
def STROKE_RISK_THRESHOLD_MEDIUM : Int := 25

/-- PatientRecord.get_risk_level (patient.py lines 251-258), which consults
the Config thresholds instead of literals. -/
def get_risk_level_model (risk_score : Int) : String :=
  if risk_score ≥ STROKE_RISK_THRESHOLD_HIGH then "high"
  else if risk_score ≥ STROKE_RISK_THRESHOLD_MEDIUM then "medium"
  else "low"

/-- The additive scoring table exactly as the specification words it
(spec section 4.1 and claim C1), for comparison with the code. -/
def specStrokeScore (d : PatientData) : Int :=
  let age := d.age.getD 0
  let glucose := d.avg_glucose_level.getD 0
  let bmi := d.bmi.getD 0
  let smoking := d.smoking_status.getD "Unknown"
  let total : Int :=
    (if age > 60 then 30 else if 45 < age ∧ age ≤ 60 then 15 else 0)
    + (if d.hypertension.getD 0 = 1 then 25 else 0)
    + (if d.heart_disease.getD 0 = 1 then 20 else 0)
    + (if glucose > 150 then 15 else if 120 < glucose ∧ glucose ≤ 150 then 8 else 0)
    + (if bmi > 30 then 10 else if 25 < bmi ∧ bmi ≤ 30 then 5 else 0)
    + (if smoking = "Smokes" then 10 else if smoking = "Formerly smoked" then 5 else 0)
    + (if d.stroke.getD 0 = 1 then 30 else 0)
  min total 100

lemma int_band_branch (x : Int) (a b : Int) :
    (if x > 60 then a else if x > 45 then b else 0)
      = (if x > 60 then a else if 45 < x ∧ x ≤ 60 then b else 0) := by
  by_cases h1 : x > 60
  · simp [h1]
  · have hx : x ≤ 60 := le_of_not_lt h1
    by_cases h2 : x > 45
    · simp [h1, h2, hx]
    · simp [h1, h2]

lemma rat_band_branch (x hi lo : Rat) (a b : Int) :
    (if x > hi then a else if x > lo then b else 0)
      = (if x > hi then a else if lo < x ∧ x ≤ hi then b else 0) := by
  by_cases h1 : x > hi
  · simp [h1]
  · have hx : x ≤ hi := le_of_not_lt h1
    by_cases h2 : x > lo
    · simp [h1, h2, hx]
    · simp [h1, h2]

/-- C1: for every patient-attribute input, the computed stroke-risk score
equals the fixed additive table of the specification: +30 if age > 60 else
+15 if 45 < age ≤ 60; +25 for hypertension; +20 for heart disease; +15 if
glucose > 150 else +8 if 120 < glucose ≤ 150; +10 if bmi > 30 else +5 if
25 < bmi ≤ 30; +10 for "Smokes", +5 for "Formerly smoked"; +30 for prior
stroke; clamped at 100, absent fields contributing their no-risk value.
The boundary cases (age 45 and 60, glucose 120 and 150, bmi 25 and 30)
follow as instances. -/
theorem calculate_stroke_risk_matches_spec_table (d : PatientData) :
    calculate_stroke_risk d = specStrokeScore d := by
  unfold calculate_stroke_risk specStrokeScore
  dsimp only
  rw [int_band_branch (d.age.getD 0) 30 15,
      rat_band_branch (d.avg_glucose_level.getD 0) 150 120 15 8,
      rat_band_branch (d.bmi.getD 0) 30 25 10 5]

/-- Rank of a risk tier, used to state monotonicity of classification. -/
def tierRank (level : String) : Nat :=
  if level = "high" then 2 else if level = "medium" then 1 else 0

/-- C3: classification is a pure total step function of the score: with the
default thresholds both implementations agree, "high" is returned exactly
when score ≥ 50, "medium" exactly when 25 ≤ score < 50, "low" otherwise,
and the tier is monotone in the score. -/
theorem get_risk_level_step_function :
    (∀ s : Int, get_risk_level_model s = get_risk_level s)
    ∧ (∀ s : Int,
        (get_risk_level s = "high" ↔ 50 ≤ s)
        ∧ (get_risk_level s = "medium" ↔ 25 ≤ s ∧ s < 50)
        ∧ (get_risk_level s = "low" ↔ s < 25))
    ∧ (∀ s1 s2 : Int, s1 < s2 → tierRank (get_risk_level s1) ≤ tierRank (get_risk_level s2)) := by
  refine ⟨?_, ?_, ?_⟩
  · intro s
    unfold get_risk_level_model get_risk_level STROKE_RISK_THRESHOLD_HIGH STROKE_RISK_THRESHOLD_MEDIUM
    rfl
  · intro s
    unfold get_risk_level
    refine ⟨?_, ?_, ?_⟩ <;> split_ifs with h1 h2 <;>
      simp_all <;> omega
  · intro s1 s2 h
    unfold get_risk_level
    split_ifs <;> first | decide | omega

/-- Witness for the hypothesis-bearing monotonicity part of C3. -/
theorem get_risk_level_step_function_witness :
    tierRank (get_risk_level 10) ≤ tierRank (get_risk_level 60) :=
  get_risk_level_step_function.2.2 10 60 (by decide)

/-- A persisted patients row (patient_sqllite.py lines 5-24).  The column
Residence_type is rendered residence_type; timestamps are abstract Int
ticks; stroke_risk is stored as Int since every value the code ever writes
is the integer score. -/
structure PatientSQLite where
  id : Int
  gender : String
  age : Int
  hypertension : Int
  heart_disease : Int
  ever_married : String
  work_type : String
  residence_type : String
  avg_glucose_level : Rat
  bmi : Rat
  smoking_status : String
  stroke : Int
  stroke_risk : Int
  risk_level : String
  created_by : Option Int
  assigned_doctor_id : Option Int
  created_at : Int
  updated_at : Int
deriving DecidableEq

/-- The patient-attribute dict obtained from a stored row, as to_dict
produces for the keys calculate_stroke_risk reads. -/
def PatientSQLite.toData (p : PatientSQLite) : PatientData :=
  { age := some p.age
    hypertension := some p.hypertension
    heart_disease := some p.heart_disease
    avg_glucose_level := some p.avg_glucose_level
    bmi := some p.bmi
    smoking_status := some p.smoking_status
    stroke := some p.stroke }

/-- One key/value pair of an update_data dict.  The typed constructors are
exactly the attribute names of PatientSQLite (the hasattr-true case of the
setattr loop); unknown carries a key that is not a model attribute. -/
inductive PatchEntry where
  | id (v : Int)
  | gender (v : String)
  | age (v : Int)
  | hypertension (v : Int)
  | heart_disease (v : Int)
  | ever_married (v : String)
  | work_type (v : String)
  | residence_type (v : String)
  | avg_glucose_level (v : Rat)
  | bmi (v : Rat)
  | smoking_status (v : String)
  | stroke (v : Int)
  | stroke_risk (v : Int)
  | risk_level (v : String)
  | created_by (v : Option Int)
  | assigned_doctor_id (v : Option Int)
  | created_at (v : Int)
  | updated_at (v : Int)
  | unknown (key : String)
deriving DecidableEq

/-- The dict key of a patch entry. -/
def PatchEntry.fieldKey : PatchEntry → String
  | .id _ => "id"
  | .gender _ => "gender"
  | .age _ => "age"
  | .hypertension _ => "hypertension"
  | .heart_disease _ => "heart_disease"
  | .ever_married _ => "ever_married"
  | .work_type _ => "work_type"
  | .residence_type _ => "Residence_type"
  | .avg_glucose_level _ => "avg_glucose_level"
  | .bmi _ => "bmi"
  | .smoking_status _ => "smoking_status"
  | .stroke _ => "stroke"
  | .stroke_risk _ => "stroke_risk"
  | .risk_level _ => "risk_level"
  | .created_by _ => "created_by"
  | .assigned_doctor_id _ => "assigned_doctor_id"
  | .created_at _ => "created_at"
  | .updated_at _ => "updated_at"
  | .unknown k => k

/-- Whether any entry of the patch has the given dict key. -/
def touches (patch : List PatchEntry) (k : String) : Bool :=
  patch.any (fun e => e.fieldKey = k)

/-- One iteration of the setattr loop of _update_patient_sqlite
(patient_service.py lines 137-139): keys that are attributes are assigned,
keys that are not (hasattr false) are skipped. -/
def applyPatchField (p : PatientSQLite) : PatchEntry → PatientSQLite
  | .id v => { p with id := v }
  | .gender v => { p with gender := v }
  | .age v => { p with age := v }
  | .hypertension v => { p with hypertension := v }
  | .heart_disease v => { p with heart_disease := v }
  | .ever_married v => { p with ever_married := v }
  | .work_type v => { p with work_type := v }
  | .residence_type v => { p with residence_type := v }
  | .avg_glucose_level v => { p with avg_glucose_level := v }
  | .bmi v => { p with bmi := v }
  | .smoking_status v => { p with smoking_status := v }
  | .stroke v => { p with stroke := v }
  | .stroke_risk v => { p with stroke_risk := v }
  | .risk_level v => { p with risk_level := v }
  | .created_by v => { p with created_by := v }
  | .assigned_doctor_id v => { p with assigned_doctor_id := v }
  | .created_at v => { p with created_at := v }
  | .updated_at v => { p with updated_at := v }
  | .unknown _ => p

/-- The recompute trigger of _update_patient_sqlite (patient_service.py
lines 141-144): the source lists exactly these six field names; note that
stroke is not among them. -/
def isRiskTrigger : PatchEntry → Bool
  | .age _ => true
  | .hypertension _ => true
  | .heart_disease _ => true
  | .avg_glucose_level _ => true
  | .bmi _ => true
  | .smoking_status _ => true
  | _ => false

/-- PatientService._update_patient_sqlite on a found row (patient_service.py
lines 137-152): apply the patch with setattr, recompute stroke_risk and
risk_level from the merged record when a trigger field is in the patch
(the merged dict patient.to_dict() updated with update_data agrees with the
post-setattr row on every key the scorer reads), and stamp updated_at. -/
def update_patient_sqlite (p : PatientSQLite) (patch : List PatchEntry) (now : Int) : PatientSQLite :=
  let p1 := patch.foldl applyPatchField p
  let p2 :=
    if patch.any isRiskTrigger then
      { p1 with
        stroke_risk := calculate_stroke_risk p1.toData
        risk_level := get_risk_level (calculate_stroke_risk p1.toData) }
    else p1
  { p2 with updated_at := now }

/-- The patient_data dict accepted by create (the eleven required input
fields plus the two optional references). -/
structure PatientCreateData where
  gender : String
  age : Int
  hypertension : Int
  heart_disease : Int
  ever_married : String
  work_type : String
  residence_type : String
  avg_glucose_level : Rat
  bmi : Rat
  smoking_status : String
  stroke : Int
  created_by : Option Int := none
  assigned_doctor_id : Option Int := none
deriving DecidableEq

/-- The dict view of create input, as .get reads it in the scorer. -/
def PatientCreateData.toData (d : PatientCreateData) : PatientData :=
  { age := some d.age
    hypertension := some d.hypertension
    heart_disease := some d.heart_disease
    avg_glucose_level := some d.avg_glucose_level
    bmi := some d.bmi
    smoking_status := some d.smoking_status
    stroke := some d.stroke }

/-- PatientService._create_patient_sqlite (patient_service.py lines 73-97):
score the input, classify it, persist the row. -/
def create_patient_sqlite (d : PatientCreateData) (newId : Int) (now : Int) : PatientSQLite :=
  let sr := calculate_stroke_risk d.toData
  { id := newId
    gender := d.gender
    age := d.age
    hypertension := d.hypertension
    heart_disease := d.heart_disease
    ever_married := d.ever_married
    work_type := d.work_type
    residence_type := d.residence_type
    avg_glucose_level := d.avg_glucose_level
    bmi := d.bmi
    smoking_status := d.smoking_status
    stroke := d.stroke
    stroke_risk := sr
    risk_level := get_risk_level sr
    created_by := d.created_by
    assigned_doctor_id := d.assigned_doctor_id
    created_at := now
    updated_at := now }

/-- A value of the to_dict dictionary of a patients row. -/
inductive ColVal where
  | vs (s : String)
  | vi (n : Int)
  | vq (q : Rat)
  | voi (o : Option Int)
deriving DecidableEq

/-- The column names of the patients table (patient_sqllite.py lines 7-24),
as an enumeration so that per-column lookups reduce by cases. -/
inductive ColKey where
  | id | gender | age | hypertension | heart_disease | ever_married
  | work_type | residence_type | avg_glucose_level | bmi | smoking_status
  | stroke | stroke_risk | risk_level | created_by | assigned_doctor_id
  | created_at | updated_at
deriving DecidableEq

/-- The dict key string of a column. -/
def colKeyStr : ColKey → String
  | .id => "id"
  | .gender => "gender"
  | .age => "age"
  | .hypertension => "hypertension"
  | .heart_disease => "heart_disease"
  | .ever_married => "ever_married"
  | .work_type => "work_type"
  | .residence_type => "Residence_type"
  | .avg_glucose_level => "avg_glucose_level"
  | .bmi => "bmi"
  | .smoking_status => "smoking_status"
  | .stroke => "stroke"
  | .stroke_risk => "stroke_risk"
  | .risk_level => "risk_level"
  | .created_by => "created_by"
  | .assigned_doctor_id => "assigned_doctor_id"
  | .created_at => "created_at"
  | .updated_at => "updated_at"

/-- The stored row viewed as its to_dict dictionary (patient_sqllite.py
lines 26-46): the column value under each key. -/
def dictGet (p : PatientSQLite) : ColKey → ColVal
  | .id => .vi p.id
  | .gender => .vs p.gender
  | .age => .vi p.age
  | .hypertension => .vi p.hypertension
  | .heart_disease => .vi p.heart_disease
  | .ever_married => .vs p.ever_married
  | .work_type => .vs p.work_type
  | .residence_type => .vs p.residence_type
  | .avg_glucose_level => .vq p.avg_glucose_level
  | .bmi => .vq p.bmi
  | .smoking_status => .vs p.smoking_status
  | .stroke => .vi p.stroke
  | .stroke_risk => .vi p.stroke_risk
  | .risk_level => .vs p.risk_level
  | .created_by => .voi p.created_by
  | .assigned_doctor_id => .voi p.assigned_doctor_id
  | .created_at => .vi p.created_at
  | .updated_at => .vi p.updated_at

lemma applyPatchField_frame (p : PatientSQLite) (e : PatchEntry) (k : ColKey)
    (h : e.fieldKey ≠ colKeyStr k) :
    dictGet (applyPatchField p e) k = dictGet p k := by
  cases e <;> cases k <;>
    first
      | rfl
      | (exact absurd rfl h)

lemma foldl_patch_frame (patch : List PatchEntry) (k : ColKey) :
    ∀ p : PatientSQLite, touches patch (colKeyStr k) = false →
      dictGet (patch.foldl applyPatchField p) k = dictGet p k := by
  induction patch with
  | nil => intro p _; rfl
  | cons e rest ih =>
    intro p h
    simp only [touches, List.any_cons, Bool.or_eq_false_iff] at h
    obtain ⟨h1, h2⟩ := h
    rw [List.foldl_cons, ih (applyPatchField p e) h2,
        applyPatchField_frame p e k (by simpa using h1)]

lemma riskOverwrite_frame (p : PatientSQLite) (sr : Int) (lvl : String) (k : ColKey)
    (h1 : k ≠ .stroke_risk) (h2 : k ≠ .risk_level) :
    dictGet { p with stroke_risk := sr, risk_level := lvl } k = dictGet p k := by
  cases k <;>
    first
      | rfl
      | (exact absurd rfl h1)
      | (exact absurd rfl h2)

lemma updatedAt_frame (p : PatientSQLite) (t : Int) (k : ColKey)
    (h : k ≠ .updated_at) :
    dictGet { p with updated_at := t } k = dictGet p k := by
  cases k <;>
    first
      | rfl
      | (exact absurd rfl h)

/-- C10 (frame property of update): every stored column whose dict key is
not a key of the patch keeps its value, the only exceptions being the
derived columns stroke_risk and risk_level and the updated_at timestamp;
updated_at is always stamped; entries whose key is not a patient attribute
are silently ignored (the update proceeds as if they were absent). -/
theorem update_patient_frame :
    (∀ (p : PatientSQLite) (patch : List PatchEntry) (now : Int) (k : ColKey),
      touches patch (colKeyStr k) = false →
      k ≠ .stroke_risk → k ≠ .risk_level → k ≠ .updated_at →
      dictGet (update_patient_sqlite p patch now) k = dictGet p k)
    ∧ (∀ (p : PatientSQLite) (patch : List PatchEntry) (now : Int),
      (update_patient_sqlite p patch now).updated_at = now)
    ∧ (∀ (p : PatientSQLite) (patch : List PatchEntry) (now : Int) (key : String),
      update_patient_sqlite p (PatchEntry.unknown key :: patch) now
        = update_patient_sqlite p patch now) := by
  refine ⟨?_, ?_, ?_⟩
  · intro p patch now k hk hsr hlvl hupd
    unfold update_patient_sqlite
    dsimp only
    rw [updatedAt_frame _ _ _ hupd]
    by_cases htr : patch.any isRiskTrigger
    · rw [if_pos htr, riskOverwrite_frame _ _ _ _ hsr hlvl, foldl_patch_frame patch k p hk]
    · rw [if_neg htr, foldl_patch_frame patch k p hk]
  · intro p patch now
    rfl
  · intro p patch now key
    unfold update_patient_sqlite
    simp only [List.foldl_cons, List.any_cons, applyPatchField, isRiskTrigger,
      Bool.false_or]

/-- Witness for C10 at a concrete row and patch: a patch touching only bmi
leaves created_by unchanged. -/
theorem update_patient_frame_witness :
    dictGet (update_patient_sqlite
      (create_patient_sqlite
        { gender := "Male", age := 30, hypertension := 0, heart_disease := 0,
          ever_married := "No", work_type := "Private", residence_type := "Urban",
          avg_glucose_level := 100, bmi := 20, smoking_status := "Never smoked",
          stroke := 0 } 1 0)
      [PatchEntry.bmi 31] 7) ColKey.created_by
    = dictGet (create_patient_sqlite
        { gender := "Male", age := 30, hypertension := 0, heart_disease := 0,
          ever_married := "No", work_type := "Private", residence_type := "Urban",
          avg_glucose_level := 100, bmi := 20, smoking_status := "Never smoked",
          stroke := 0 } 1 0) ColKey.created_by :=
  update_patient_frame.1 _ [PatchEntry.bmi 31] 7 ColKey.created_by
    (by decide) (by decide) (by decide) (by decide)

/-- A scored row used to state C2: a patient with no risk factors. -/
def noRiskPatient : PatientSQLite :=
  create_patient_sqlite
    { gender := "Male", age := 30, hypertension := 0, heart_disease := 0,
      ever_married := "No", work_type := "Private", residence_type := "Urban",
      avg_glucose_level := 100, bmi := 20, smoking_status := "Never smoked",
      stroke := 0 } 1 0

/-- C2 counterexample: the claim fails on the code in two ways.  First, the
recompute trigger list of _update_patient_sqlite omits stroke, so a patch
that changes only the stroke flag (a medical input the score depends on,
worth +30) leaves the stored stroke_risk at its stale value 0 while the
documented formula on the merged record gives 30, and leaves risk_level
"low" instead of the classification "medium" of the new score.  Second, a
service-level patch may set the derived stroke_risk column directly (the
setattr loop accepts it and no recompute fires). -/
theorem update_patient_stroke_not_recomputed :
    (update_patient_sqlite noRiskPatient [PatchEntry.stroke 1] 5).stroke = 1
    ∧ (update_patient_sqlite noRiskPatient [PatchEntry.stroke 1] 5).stroke_risk = 0
    ∧ calculate_stroke_risk (update_patient_sqlite noRiskPatient [PatchEntry.stroke 1] 5).toData = 30
    ∧ (update_patient_sqlite noRiskPatient [PatchEntry.stroke 1] 5).stroke_risk
        ≠ calculate_stroke_risk (update_patient_sqlite noRiskPatient [PatchEntry.stroke 1] 5).toData
    ∧ (update_patient_sqlite noRiskPatient [PatchEntry.stroke 1] 5).risk_level
        ≠ get_risk_level (calculate_stroke_risk (update_patient_sqlite noRiskPatient [PatchEntry.stroke 1] 5).toData)
    ∧ (update_patient_sqlite noRiskPatient [PatchEntry.stroke_risk 99] 5).stroke_risk = 99 := by
  refine ⟨rfl, rfl, by decide, by decide, by decide, rfl⟩

/-- C2 as amended: after every create the stored stroke_risk is the
documented formula of the stored fields and risk_level is its
classification; after an update whose patch contains at least one of the
six trigger fields age, hypertension, heart_disease, avg_glucose_level,
bmi, smoking_status (stroke is not a trigger), both derived fields are
recomputed from the merged resulting record. -/
theorem patient_risk_fields_consistent :
    (∀ (d : PatientCreateData) (newId now : Int),
      (create_patient_sqlite d newId now).stroke_risk
          = calculate_stroke_risk (create_patient_sqlite d newId now).toData
      ∧ (create_patient_sqlite d newId now).risk_level
          = get_risk_level ((create_patient_sqlite d newId now).stroke_risk))
    ∧ (∀ (p : PatientSQLite) (patch : List PatchEntry) (now : Int),
      patch.any isRiskTrigger = true →
      (update_patient_sqlite p patch now).stroke_risk
          = calculate_stroke_risk (update_patient_sqlite p patch now).toData
      ∧ (update_patient_sqlite p patch now).risk_level
          = get_risk_level ((update_patient_sqlite p patch now).stroke_risk)) := by
  constructor
  · intro d newId now
    exact ⟨rfl, rfl⟩
  · intro p patch now htr
    unfold update_patient_sqlite
    dsimp only
    rw [if_pos htr]
    exact ⟨rfl, rfl⟩

/-- Witness for the hypothesis-bearing update part of the amended C2. -/
theorem patient_risk_fields_consistent_witness :
    (update_patient_sqlite noRiskPatient [PatchEntry.age 70] 5).stroke_risk
        = calculate_stroke_risk (update_patient_sqlite noRiskPatient [PatchEntry.age 70] 5).toData
    ∧ (update_patient_sqlite noRiskPatient [PatchEntry.age 70] 5).risk_level
        = get_risk_level ((update_patient_sqlite noRiskPatient [PatchEntry.age 70] 5).stroke_risk) :=
  patient_risk_fields_consistent.2 noRiskPatient [PatchEntry.age 70] 5 (by decide)

/-- The pattern of the case-insensitive javascript: removal. -/
def jsPat : List Char := ['j', 'a', 'v', 'a', 's', 'c', 'r', 'i', 'p', 't', ':']

/-- Case-insensitive pattern match at the head of a string. -/
def startsLowerPat : List Char → List Char → Bool
  | [], _ => true
  | _ :: _, [] => false
  | p :: ps, c :: cs => (c.toLower == p) && startsLowerPat ps cs

/-- re.sub of javascript: with IGNORECASE (security.py line 106): scan left
to right, delete each non-overlapping occurrence, continue after it.  The
counter k is the number of characters of a recognised occurrence still to
be skipped. -/
def removeJSAux (k : Nat) : List Char → List Char
  | [] => []
  | c :: cs =>
    match k with
    | kk + 1 => removeJSAux kk cs
    | 0 =>
      if startsLowerPat jsPat (c :: cs) then removeJSAux 10 cs
      else c :: removeJSAux 0 cs

/-- A regex word character, ASCII range (inputs here are ASCII). -/
def isWordChar (c : Char) : Bool := c.isAlphanum || c == '_'

/-- Length of a match of the pattern on-then-word-chars-then-equals at the
head of the string, if any (security.py line 107).  The greedy word-char
run can only be followed by the equals sign if the maximal run is. -/
def matchOnLen (s : List Char) : Option Nat :=
  match s with
  | c1 :: c2 :: rest =>
    if (c1.toLower == 'o') && (c2.toLower == 'n') then
      let run := rest.takeWhile isWordChar
      if run.length > 0 then
        match rest.drop run.length with
        | '=' :: _ => some (2 + run.length + 1)
        | _ => none
      else none
    else none
  | _ => none

/-- re.sub of the on-attribute pattern with IGNORECASE (security.py line
107), same scanning discipline as removeJSAux. -/
def removeOnAttrAux (k : Nat) : List Char → List Char
  | [] => []
  | c :: cs =>
    match k with
    | kk + 1 => removeOnAttrAux kk cs
    | 0 =>
      match matchOnLen (c :: cs) with
      | some n => removeOnAttrAux (n - 1) cs
      | none => c :: removeOnAttrAux 0 cs

/-- str.strip: drop whitespace from both ends. -/
def pyStrip (s : List Char) : List Char :=
  ((s.dropWhile Char.isWhitespace).reverse.dropWhile Char.isWhitespace).reverse

/-- sanitize_input (security.py lines 99-109): falsy input returned as is,
angle brackets removed, javascript: occurrences removed, on-attribute
patterns removed, result stripped. -/
def sanitize_input (s : String) : String :=
  if s = "" then s
  else
    let c1 := s.toList.filter (fun c => !(c == '<' || c == '>'))
    let c2 := removeJSAux 0 c1
    let c3 := removeOnAttrAux 0 c2
    String.mk (pyStrip c3)

/-- A character of the local part of the email regex (security.py line 80). -/
def emailLocalChar (c : Char) : Bool :=
  c.isAlphanum || c == '.' || c == '_' || c == '%' || c == '+' || c == '-'

/-- A character of the domain part of the email regex. -/
def emailDomChar (c : Char) : Bool :=
  c.isAlphanum || c == '.' || c == '-'

/-- Whether the text after the at-sign matches domain-chars, a dot, then at
least two letters running to the end of the string. -/
def emailTail (r : List Char) : Bool :=
  (List.range r.length).any (fun j =>
    decide (1 ≤ j) && (r.getD j ' ' == '.') && (r.take j).all emailDomChar
      && (r.drop (j + 1)).all Char.isAlpha && decide (2 ≤ r.length - (j + 1)))

/-- validate_email (security.py lines 78-81): decision procedure for the
anchored regex local+ at domain+ dot alpha-twice-or-more. -/
def validate_email (s : String) : Bool :=
  let cs := s.toList
  let lp := cs.takeWhile (fun c => c != '@')
  match cs.drop lp.length with
  | '@' :: r => !lp.isEmpty && lp.all emailLocalChar && emailTail r
  | _ => false

/-- validate_password (security.py lines 83-97): length then character
class checks, each with its message. -/
def validate_password (p : String) : Bool × String :=
  if p.length < 8 then (false, "Password must be at least 8 characters long")
  else if !(p.toList.any Char.isUpper) then
    (false, "Password must contain at least one uppercase letter")
  else if !(p.toList.any Char.isLower) then
    (false, "Password must contain at least one lowercase letter")
  else if !(p.toList.any Char.isDigit) then
    (false, "Password must contain at least one number")
  else (true, "Password is valid")

/-- A users row (user.py lines 25-74).  The bcrypt hash is modelled as an
injective tagging of the plaintext, since every claim depends only on
whether a check matches, never on cryptographic structure. -/
structure AuthUser where
  id : Int
  username : String
  email : String
  password_hash : String
  role : String
  first_name : String
  last_name : String
  phone : String
  specialization : Option String
  license_number : Option String
  is_active : Bool
  created_at : Int
  last_login : Option Int
deriving DecidableEq

/-- Model of bcrypt.generate_password_hash (user.py line 87). -/
def hashPassword (p : String) : String := "bcrypt2b12." ++ p

/-- User.check_password (user.py lines 89-100). -/
def checkPassword (u : AuthUser) (p : String) : Bool :=
  u.password_hash == hashPassword p

/-- User.generate_auth_token, modelled as an opaque token naming the user
(the JWT payload and signature carry no weight in the claims). -/
def generate_auth_token (u : AuthUser) : String := "jwt." ++ toString u.id

/-- A security_logs row (security_log.py lines 8-83). -/
structure SecurityLogEntry where
  event_type : String
  event_description : String
  user_id : Option Int
  username : Option String
  user_role : Option String
  ip_address : Option String
  user_agent : Option String
  status : String
  severity : String
  created_at : Int
deriving DecidableEq

/-- SecurityLog.log_event (security_log.py lines 109-153): append one row
to the persistent security_logs table. -/
def SecurityLog_log_event (logs : List SecurityLogEntry)
    (event_type description : String) (user_id : Option Int)
    (username user_role ip_address user_agent : Option String)
    (status severity : String) (now : Int) : List SecurityLogEntry :=
  logs ++ [{ event_type := event_type, event_description := description,
             user_id := user_id, username := username, user_role := user_role,
             ip_address := ip_address, user_agent := user_agent,
             status := status, severity := severity, created_at := now }]

/-- Rendering of an optional id in the logger line. -/
def optIntStr : Option Int → String
  | none => "None"
  | some i => toString i

/-- Rendering of an optional string in the logger line. -/
def optStrStr : Option String → String
  | none => "None"
  | some s => s

/-- log_security_event (security.py lines 111-113): the helper the auth
routes call.  It writes one line to the application logger and nothing
else; in particular it does not touch the security_logs table. -/
def log_security_event (app_log : List String) (user_id : Option Int)
    (event_type description : String) (ip_address : Option String) : List String :=
  app_log ++ ["Security Event - User: " ++ optIntStr user_id ++ ", Type: "
    ++ event_type ++ ", Description: " ++ description ++ ", IP: "
    ++ optStrStr ip_address]

/-- The persistent and logger state the auth routes act on. -/
structure AuthState where
  users : List AuthUser
  security_logs : List SecurityLogEntry
  app_log : List String
deriving DecidableEq

/-- The JSON reply of the login route. -/
structure LoginResponse where
  status : Nat
  message : String
  token : Option String
deriving DecidableEq

/-- UserOperations.update_last_login (database.py lines 190-206). -/
def update_last_login (users : List AuthUser) (uid : Int) (now : Int) : List AuthUser :=
  users.map (fun v => if v.id = uid then { v with last_login := some now } else v)

/-- The login route (auth.py lines 126-209) from the required-field check
on: sanitization gate, user lookup, password check, activation check,
last-login update, token issue.  Lookup failure and password mismatch
share one branch as in the source; note which branches call
log_security_event and that none touches security_logs. -/
def login (s : AuthState) (username password : String) (ip : Option String)
    (now : Int) : LoginResponse × AuthState :=
  if username = "" ∨ password = "" then
    ({ status := 400, message := "Username and password are required", token := none }, s)
  else if sanitize_input username ≠ username then
    ({ status := 400, message := "Username contains invalid whitespace or characters",
       token := none }, s)
  else
    match s.users.find? (fun u => u.username == username) with
    | none =>
      ({ status := 401, message := "Invalid username or password", token := none },
       { s with app_log := (log_security_event s.app_log none "LOGIN_FAILED"
           ("Failed login attempt for username: " ++ username) ip) })
    | some u =>
      if !(checkPassword u password) then
        ({ status := 401, message := "Invalid username or password", token := none },
         { s with app_log := (log_security_event s.app_log none "LOGIN_FAILED"
             ("Failed login attempt for username: " ++ username) ip) })
      else if !u.is_active then
        ({ status := 401, message := "Account is deactivated", token := none }, s)
      else
        ({ status := 200, message := "Login successful",
           token := some (generate_auth_token u) },
         { s with users := update_last_login s.users u.id now,
                  app_log := (log_security_event s.app_log (some u.id) "LOGIN_SUCCESS"
                    ("User " ++ username ++ " logged in successfully") ip) })

/-- C4: the login route never appends to the persistent SecurityAuditLog —
log_security_event only writes an application-logger line — and the
deactivated-account branch writes nothing anywhere.  This contradicts the
claim that every outcome appends exactly one persistent entry. -/
theorem login_never_appends_security_log :
    ∀ (s : AuthState) (username password : String) (ip : Option String) (now : Int),
      ((login s username password ip now).2).security_logs = s.security_logs
      ∧ (∀ u, s.users.find? (fun v => v.username == username) = some u →
          checkPassword u password = true → u.is_active = false →
          username ≠ "" → password ≠ "" → sanitize_input username = username →
          (login s username password ip now).2 = s) := by
  intro s username password ip now
  constructor
  · unfold login
    split_ifs with h1 h2
    · rfl
    · rfl
    · cases s.users.find? (fun u => u.username == username) with
      | none => rfl
      | some u =>
        dsimp only
        split_ifs <;> rfl
  · intro u hfind hchk hact hu hp hsan
    unfold login
    rw [if_neg (by simp [hu, hp]), if_neg (by simp [hsan]), hfind]
    dsimp only
    rw [if_neg (by simp [hchk]), if_pos (by simp [hact])]

/-- A deactivated account used as concrete input for C4 and C8. -/
def carolUser : AuthUser :=
  { id := 1, username := "carol", email := "c@ex.com",
    password_hash := hashPassword "Secret123", role := "patient",
    first_name := "C", last_name := "D", phone := "",
    specialization := none, license_number := none,
    is_active := false, created_at := 0, last_login := none }

/-- The one-user state holding carolUser. -/
def carolState : AuthState :=
  { users := [carolUser], security_logs := [], app_log := [] }

/-- Witness for the deactivated-branch part of C4: a deactivated account
with the right password leaves the entire state, logger included,
untouched. -/
theorem login_never_appends_security_log_witness :
    (login carolState "carol" "Secret123" none 9).2 = carolState :=
  (login_never_appends_security_log carolState "carol" "Secret123" none 9).2 carolUser
    (by decide) (by decide) (by decide) (by decide) (by decide) (by decide)

/-- C8: the reply of a failed login is identical — same status, same
message, same (absent) token — whether the username does not exist or the
username exists but the password is wrong, so the outcome never reveals
whether a username exists. -/
theorem login_failure_indistinguishable :
    ∀ (s : AuthState) (u1 p1 u2 p2 : String) (ip : Option String) (now : Int)
      (usr : AuthUser),
      u1 ≠ "" → p1 ≠ "" → u2 ≠ "" → p2 ≠ "" →
      sanitize_input u1 = u1 → sanitize_input u2 = u2 →
      s.users.find? (fun v => v.username == u1) = none →
      s.users.find? (fun v => v.username == u2) = some usr →
      checkPassword usr p2 = false →
      (login s u1 p1 ip now).1 = (login s u2 p2 ip now).1 := by
  intro s u1 p1 u2 p2 ip now usr hu1 hp1 hu2 hp2 hs1 hs2 hf1 hf2 hchk
  unfold login
  rw [if_neg (by simp [hu1, hp1]), if_neg (by simp [hs1]), hf1,
      if_neg (by simp [hu2, hp2]), if_neg (by simp [hs2]), hf2]
  dsimp only
  rw [if_pos (by simp [hchk])]

/-- Witness for C8: unknown user bob and known user carol with a wrong
password receive the same reply. -/
theorem login_failure_indistinguishable_witness :
    (login carolState "bob" "Whatever1" none 9).1
      = (login carolState "carol" "Wrong1234" none 9).1 :=
  login_failure_indistinguishable carolState "bob" "Whatever1" "carol" "Wrong1234"
    none 9 carolUser (by decide) (by decide) (by decide) (by decide)
    (by decide) (by decide) (by decide) (by decide) (by decide)

/-- The body of a registration request (auth.py lines 23-64); absent
optional fields are the empty string, matching data.get with default. -/
structure RegisterRequest where
  username : String
  email : String
  password : String
  first_name : String
  last_name : String
  role : String
  phone : String
  specialization : String
  license_number : String
deriving DecidableEq

/-- The users row built by a successful registration (auth.py lines
96-107 with UserOperations.create_user, database.py lines 81-94). -/
def mkRegisterUser (r : RegisterRequest) (newId now : Int) : AuthUser :=
  { id := newId, username := sanitize_input r.username,
    email := sanitize_input r.email,
    password_hash := hashPassword r.password,
    role := sanitize_input r.role,
    first_name := sanitize_input r.first_name,
    last_name := sanitize_input r.last_name,
    phone := sanitize_input r.phone,
    specialization := if sanitize_input r.role == "doctor"
      then some (sanitize_input r.specialization) else none,
    license_number := if sanitize_input r.role == "doctor"
      then some (sanitize_input r.license_number) else none,
    is_active := true, created_at := now, last_login := none }

/-- The register route (auth.py lines 57-118) over the user store:
required-field checks in source order, sanitization, email and password
validation, duplicate-username then duplicate-email checks, role list
check, then UserOperations.create_user (database.py lines 48-99) appending
the row. -/
def register (s : List AuthUser) (r : RegisterRequest) (newId : Int)
    (now : Int) : (Nat × String) × List AuthUser :=
  if r.username = "" then ((400, "username is required"), s)
  else if r.email = "" then ((400, "email is required"), s)
  else if r.password = "" then ((400, "password is required"), s)
  else if r.first_name = "" then ((400, "first_name is required"), s)
  else if r.last_name = "" then ((400, "last_name is required"), s)
  else if r.role = "" then ((400, "role is required"), s)
  else
    let username := sanitize_input r.username
    let email := sanitize_input r.email
    let role := sanitize_input r.role
    if !(validate_email email) then ((400, "Invalid email format"), s)
    else if !((validate_password r.password).1) then
      ((400, (validate_password r.password).2), s)
    else if (s.find? (fun u => u.username == username)).isSome then
      ((409, "Username already exists"), s)
    else if (s.find? (fun u => u.email == email)).isSome then
      ((409, "Email already exists"), s)
    else if !(role == "patient" || role == "doctor" || role == "admin") then
      ((400, "Invalid role"), s)
    else
      ((201, "User registered successfully"), s ++ [mkRegisterUser r newId now])

/-- Inversion of a successful registration: a 201 reply implies neither the
username nor the email was present, and the reply store appends exactly the
new row. -/
lemma register_201_inv (s : List AuthUser) (r : RegisterRequest) (newId now : Int)
    (res : (Nat × String) × List AuthUser)
    (h : register s r newId now = res) (h201 : res.1.1 = 201) :
    s.find? (fun u => u.username == sanitize_input r.username) = none
    ∧ s.find? (fun u => u.email == sanitize_input r.email) = none
    ∧ res.2 = s ++ [mkRegisterUser r newId now] := by
  subst h
  simp only [register] at h201 ⊢
  by_cases c1 : r.username = ""
  · rw [if_pos c1] at h201; simp at h201
  rw [if_neg c1] at h201 ⊢
  by_cases c2 : r.email = ""
  · rw [if_pos c2] at h201; simp at h201
  rw [if_neg c2] at h201 ⊢
  by_cases c3 : r.password = ""
  · rw [if_pos c3] at h201; simp at h201
  rw [if_neg c3] at h201 ⊢
  by_cases c4 : r.first_name = ""
  · rw [if_pos c4] at h201; simp at h201
  rw [if_neg c4] at h201 ⊢
  by_cases c5 : r.last_name = ""
  · rw [if_pos c5] at h201; simp at h201
  rw [if_neg c5] at h201 ⊢
  by_cases c6 : r.role = ""
  · rw [if_pos c6] at h201; simp at h201
  rw [if_neg c6] at h201 ⊢
  by_cases c7 : (!(validate_email (sanitize_input r.email))) = true
  · rw [if_pos c7] at h201; simp at h201
  rw [if_neg c7] at h201 ⊢
  by_cases c8 : (!((validate_password r.password).1)) = true
  · rw [if_pos c8] at h201; simp at h201
  rw [if_neg c8] at h201 ⊢
  by_cases c9 : (s.find? (fun u => u.username == sanitize_input r.username)).isSome = true
  · rw [if_pos c9] at h201; simp at h201
  rw [if_neg c9] at h201 ⊢
  by_cases c10 : (s.find? (fun u => u.email == sanitize_input r.email)).isSome = true
  · rw [if_pos c10] at h201; simp at h201
  rw [if_neg c10] at h201 ⊢
  by_cases c11 : (!(sanitize_input r.role == "patient" || sanitize_input r.role == "doctor"
      || sanitize_input r.role == "admin")) = true
  · rw [if_pos c11] at h201; simp at h201
  rw [if_neg c11] at h201 ⊢
  refine ⟨?_, ?_, rfl⟩
  · exact Option.not_isSome_iff_eq_none.mp (by simpa using c9)
  · exact Option.not_isSome_iff_eq_none.mp (by simpa using c10)

/-- C7: when a registration succeeds (201) and a second create call uses
the same (sanitized) username or the same email and passes the field
validations, the second call returns 409 duplicate, leaves the store
exactly as the first call left it, and exactly one identity with the first
username and the first email is persisted. -/
theorem register_duplicate_rejected :
    ∀ (s s1 : List AuthUser) (r1 r2 : RegisterRequest) (id1 id2 now1 now2 : Int),
      register s r1 id1 now1 = ((201, "User registered successfully"), s1) →
      (sanitize_input r2.username = sanitize_input r1.username
        ∨ sanitize_input r2.email = sanitize_input r1.email) →
      r2.username ≠ "" → r2.email ≠ "" → r2.password ≠ "" →
      r2.first_name ≠ "" → r2.last_name ≠ "" → r2.role ≠ "" →
      validate_email (sanitize_input r2.email) = true →
      (validate_password r2.password).1 = true →
      (register s1 r2 id2 now2).1.1 = 409
      ∧ (register s1 r2 id2 now2).2 = s1
      ∧ s1.countP (fun u => u.username == sanitize_input r1.username) = 1
      ∧ s1.countP (fun u => u.email == sanitize_input r1.email) = 1 := by
  intro s s1 r1 r2 id1 id2 now1 now2 h hcase hru hre hrp hrf hrl hrr hve hvp
  obtain ⟨hU, hE, hs1⟩ := register_201_inv s r1 id1 now1 _ h rfl
  simp only at hs1
  subst hs1
  have hfindU1 : (s ++ [mkRegisterUser r1 id1 now1]).find?
      (fun u => u.username == sanitize_input r1.username) = some (mkRegisterUser r1 id1 now1) := by
    rw [List.find?_append, hU]
    simp [mkRegisterUser]
  have hfindE1 : (s ++ [mkRegisterUser r1 id1 now1]).find?
      (fun u => u.email == sanitize_input r1.email) = some (mkRegisterUser r1 id1 now1) := by
    rw [List.find?_append, hE]
    simp [mkRegisterUser]
  have hcU : (s ++ [mkRegisterUser r1 id1 now1]).countP
      (fun u => u.username == sanitize_input r1.username) = 1 := by
    rw [List.countP_append]
    have h0 : s.countP (fun u => u.username == sanitize_input r1.username) = 0 :=
      List.countP_eq_zero.mpr (fun a ha hpa => List.find?_eq_none.mp hU a ha hpa)
    rw [h0]
    simp [mkRegisterUser]
  have hcE : (s ++ [mkRegisterUser r1 id1 now1]).countP
      (fun u => u.email == sanitize_input r1.email) = 1 := by
    rw [List.countP_append]
    have h0 : s.countP (fun u => u.email == sanitize_input r1.email) = 0 :=
      List.countP_eq_zero.mpr (fun a ha hpa => List.find?_eq_none.mp hE a ha hpa)
    rw [h0]
    simp [mkRegisterUser]
  simp only [register]
  rw [if_neg hru, if_neg hre, if_neg hrp, if_neg hrf, if_neg hrl, if_neg hrr,
      if_neg (by simp [hve]), if_neg (by simp [hvp])]
  rcases hcase with hU2 | hE2
  · rw [if_pos (by rw [hU2, hfindU1]; rfl)]
    exact ⟨rfl, rfl, hcU, hcE⟩
  · by_cases hd : ((s ++ [mkRegisterUser r1 id1 now1]).find?
        (fun u => u.username == sanitize_input r2.username)).isSome = true
    · rw [if_pos hd]
      exact ⟨rfl, rfl, hcU, hcE⟩
    · rw [if_neg hd, if_pos (by rw [hE2, hfindE1]; rfl)]
      exact ⟨rfl, rfl, hcU, hcE⟩

/-- A concrete registration request. -/
def aliceRequest : RegisterRequest :=
  { username := "alice", email := "alice@ex.com", password := "Secret123",
    first_name := "A", last_name := "B", role := "patient",
    phone := "", specialization := "", license_number := "" }

/-- A second request reusing the username of aliceRequest. -/
def aliceDupRequest : RegisterRequest :=
  { username := "alice", email := "other@ex.com", password := "Secret456",
    first_name := "X", last_name := "Y", role := "patient",
    phone := "", specialization := "", license_number := "" }

/-- Witness for C7 at concrete requests. -/
theorem register_duplicate_rejected_witness :
    (register (register [] aliceRequest 1 0).2 aliceDupRequest 2 1).1.1 = 409
    ∧ (register (register [] aliceRequest 1 0).2 aliceDupRequest 2 1).2
        = (register [] aliceRequest 1 0).2
    ∧ ((register [] aliceRequest 1 0).2).countP
        (fun u => u.username == sanitize_input aliceRequest.username) = 1
    ∧ ((register [] aliceRequest 1 0).2).countP
        (fun u => u.email == sanitize_input aliceRequest.email) = 1 :=
  register_duplicate_rejected [] (register [] aliceRequest 1 0).2
    aliceRequest aliceDupRequest 1 2 0 1 (by decide) (by decide)
    (by decide) (by decide) (by decide) (by decide) (by decide) (by decide)
    (by decide) (by decide)

/-- A calendar date as datetime.date: compared lexicographically. -/
structure PyDate where
  year : Nat
  month : Nat
  day : Nat
deriving DecidableEq

/-- Strict date comparison, as the less-than of datetime.date. -/
def dateLt (a b : PyDate) : Bool :=
  decide (a.year < b.year ∨ (a.year = b.year ∧ (a.month < b.month
    ∨ (a.month = b.month ∧ a.day < b.day))))

/-- Whether a year is a leap year (Gregorian rule). -/
def isLeapYear (y : Nat) : Bool :=
  (y % 4 == 0 && y % 100 != 0) || y % 400 == 0

/-- Days of a month. -/
def daysInMonth (y m : Nat) : Nat :=
  if m = 2 then (if isLeapYear y then 29 else 28)
  else if m = 4 ∨ m = 6 ∨ m = 9 ∨ m = 11 then 30
  else 31

/-- Split a character list at every occurrence of the separator. -/
def splitOnChar (sep : Char) : List Char → List (List Char)
  | [] => [[]]
  | c :: cs =>
    let r := splitOnChar sep cs
    if c == sep then [] :: r
    else
      match r with
      | [] => [[c]]
      | g :: gs => (c :: g) :: gs

/-- The numeric value of a nonempty all-digit group. -/
def digitsToNat (cs : List Char) : Option Nat :=
  if !cs.isEmpty && cs.all Char.isDigit then
    some (cs.foldl (fun acc c => acc * 10 + (c.toNat - 48)) 0)
  else none

/-- datetime.strptime with format year-month-day: three dash-separated
digit groups of bounded width forming a valid calendar date. -/
def parse_date (s : String) : Option PyDate :=
  match splitOnChar (Char.ofNat 45) s.toList with
  | [ys, ms, ds] =>
    match digitsToNat ys, digitsToNat ms, digitsToNat ds with
    | some y, some m, some d =>
      if ys.length ≤ 4 ∧ ms.length ≤ 2 ∧ ds.length ≤ 2
          ∧ 1 ≤ m ∧ m ≤ 12 ∧ 1 ≤ d ∧ d ≤ daysInMonth y m then
        some { year := y, month := m, day := d }
      else none
    | _, _, _ => none
  | _ => none

/-- datetime.strptime with format hour:minute. -/
def parse_time (s : String) : Option (Nat × Nat) :=
  match splitOnChar (Char.ofNat 58) s.toList with
  | [hs, ms] =>
    match digitsToNat hs, digitsToNat ms with
    | some h, some m =>
      if hs.length ≤ 2 ∧ ms.length ≤ 2 ∧ h ≤ 23 ∧ m ≤ 59 then some (h, m) else none
    | _, _ => none
  | _ => none

/-- An appointments document (appointment_service.py lines 62-73); date and
time are kept as the request strings, as the code stores them. -/
structure Appt where
  id : String
  patient_id : String
  doctor_id : String
  appointment_date : String
  appointment_time : String
  reason : String
  urgency : String
  status : String
  notes : Option String
  created_at : Int
  updated_at : Int
deriving DecidableEq

/-- The authenticated caller of an appointment route. -/
structure ApiUser where
  id : Int
  role : String
deriving DecidableEq

/-- AppointmentMongoDB.update_appointment (appointment_service.py lines
173-184): update_one on the id filter applies the set-fields f (which
include the refreshed updated_at) to the matching document; the returned
flag models modified_count being positive, i.e. the document changed. -/
def update_appointment (store : List Appt) (aid : String) (f : Appt → Appt) :
    Bool × List Appt :=
  match store.find? (fun a => a.id == aid) with
  | none => (false, store)
  | some a => (decide (f a ≠ a), store.map (fun b => if b.id == aid then f b else b))

/-- The field set of cancel_appointment (appointment_service.py line 188). -/
def cancel_update (a : Appt) (now : Int) : Appt :=
  { a with status := "cancelled", updated_at := now }

/-- AppointmentMongoDB.cancel_appointment (appointment_service.py lines
186-188). -/
def cancel_appointment (store : List Appt) (aid : String) (now : Int) :
    Bool × List Appt :=
  update_appointment store aid (fun a => cancel_update a now)

/-- The field set of a reschedule (appointments.py lines 161-166). -/
def resched_update (a : Appt) (dateStr timeStr : String) (now : Int) : Appt :=
  { a with appointment_date := dateStr, appointment_time := timeStr, updated_at := now }

/-- The book route (appointments.py lines 10-60): required fields, date and
time parsing, strict past-date check against today, then document creation
with status scheduled. -/
def book_route (store : List Appt) (user : ApiUser)
    (doctor_id dateStr timeStr reason urgency : String) (today : PyDate)
    (newId : String) (now : Int) : (Nat × String) × List Appt :=
  if doctor_id = "" then ((400, "doctor_id is required"), store)
  else if dateStr = "" then ((400, "appointment_date is required"), store)
  else if timeStr = "" then ((400, "appointment_time is required"), store)
  else if reason = "" then ((400, "reason is required"), store)
  else
    match parse_date dateStr, parse_time timeStr with
    | some d, some _ =>
      if dateLt d today then ((400, "Cannot book appointments in the past"), store)
      else
        ((201, "Appointment booked successfully"),
         store ++ [{ id := newId, patient_id := toString user.id,
                     doctor_id := doctor_id, appointment_date := dateStr,
                     appointment_time := timeStr, reason := sanitize_input reason,
                     urgency := urgency, status := "scheduled", notes := none,
                     created_at := now, updated_at := now }])
    | _, _ =>
      ((400, "Invalid date or time format. Use YYYY-MM-DD for date and HH:MM for time"),
       store)

/-- The cancel route (appointments.py lines 101-125): lookup, ownership
checks, then service cancel; the reply is 200 regardless of the service
flag. -/
def cancel_route (store : List Appt) (user : ApiUser) (aid : String)
    (now : Int) : (Nat × String) × List Appt :=
  match store.find? (fun a => a.id == aid) with
  | none => ((404, "Appointment not found"), store)
  | some appt =>
    if user.role == "patient" && !(appt.patient_id == toString user.id) then
      ((403, "Access denied"), store)
    else if user.role == "doctor" && !(appt.doctor_id == toString user.id) then
      ((403, "Access denied"), store)
    else
      ((200, "Appointment cancelled successfully"), (cancel_appointment store aid now).2)

/-- The reschedule route (appointments.py lines 127-175): required fields,
parsing, the same strict past-date check, lookup, ownership checks, then
the date/time update. -/
def reschedule_route (store : List Appt) (user : ApiUser) (aid : String)
    (dateStr timeStr : String) (today : PyDate) (now : Int) :
    (Nat × String) × List Appt :=
  if dateStr = "" ∨ timeStr = "" then ((400, "New date and time are required"), store)
  else
    match parse_date dateStr, parse_time timeStr with
    | some d, some _ =>
      if dateLt d today then ((400, "Cannot reschedule to a past date"), store)
      else
        match store.find? (fun a => a.id == aid) with
        | none => ((404, "Appointment not found"), store)
        | some appt =>
          if user.role == "patient" && !(appt.patient_id == toString user.id) then
            ((403, "Access denied"), store)
          else if user.role == "doctor" && !(appt.doctor_id == toString user.id) then
            ((403, "Access denied"), store)
          else
            let r := update_appointment store aid
              (fun a => resched_update a dateStr timeStr now)
            if r.1 then ((200, "Appointment rescheduled successfully"), r.2)
            else ((500, "Failed to reschedule appointment"), r.2)
    | _, _ =>
      ((400, "Invalid date or time format. Use YYYY-MM-DD for date and HH:MM for time"),
       store)

/-- C5: for a well-formed booking request (required fields present, date
and time parse), the reply is the past-date error exactly when the
requested date is strictly before today, in which case no appointment is
created; otherwise booking replies 201.  Rescheduling re-checks the same
strict rule on the new date before any lookup and modifies nothing on that
failure. -/
theorem appointment_past_date_rule :
    ∀ (store : List Appt) (user : ApiUser) (aid doctor_id dateStr timeStr reason urgency : String)
      (today : PyDate) (newId : String) (now : Int) (d : PyDate) (tm : Nat × Nat),
      parse_date dateStr = some d → parse_time timeStr = some tm →
      doctor_id ≠ "" → dateStr ≠ "" → timeStr ≠ "" → reason ≠ "" →
      ((book_route store user doctor_id dateStr timeStr reason urgency today newId now).1
          = (400, "Cannot book appointments in the past") ↔ dateLt d today = true)
      ∧ (dateLt d today = true →
          (book_route store user doctor_id dateStr timeStr reason urgency today newId now).2 = store)
      ∧ (dateLt d today = false →
          (book_route store user doctor_id dateStr timeStr reason urgency today newId now).1.1 = 201)
      ∧ ((reschedule_route store user aid dateStr timeStr today now).1
          = (400, "Cannot reschedule to a past date") ↔ dateLt d today = true)
      ∧ (dateLt d today = true →
          (reschedule_route store user aid dateStr timeStr today now).2 = store) := by
  intro store user aid doctor_id dateStr timeStr reason urgency today newId now d tm
  intro hpd hpt hdoc hds hts hrs
  have hbook : book_route store user doctor_id dateStr timeStr reason urgency today newId now
      = if dateLt d today then ((400, "Cannot book appointments in the past"), store)
        else ((201, "Appointment booked successfully"),
          store ++ [{ id := newId, patient_id := toString user.id,
                      doctor_id := doctor_id, appointment_date := dateStr,
                      appointment_time := timeStr, reason := sanitize_input reason,
                      urgency := urgency, status := "scheduled", notes := none,
                      created_at := now, updated_at := now }]) := by
    unfold book_route
    rw [if_neg hdoc, if_neg hds, if_neg hts, if_neg hrs, hpd, hpt]
  refine ⟨?_, ?_, ?_, ?_, ?_⟩
  · rw [hbook]
    by_cases hlt : dateLt d today = true
    · simp [hlt]
    · simp [hlt]
  · intro hlt
    rw [hbook, if_pos hlt]
  · intro hlt
    rw [hbook, if_neg (by simp [hlt])]
  · unfold reschedule_route
    rw [if_neg (by simp [hds, hts]), hpd, hpt]
    dsimp only
    by_cases hlt : dateLt d today = true
    · simp [hlt]
    · rw [if_neg hlt]
      simp only [hlt, iff_false]
      rcases hf : store.find? (fun a => a.id == aid) with _ | appt
      · rw [hf]
        simp
      · rw [hf]
        dsimp only
        split_ifs <;> simp
  · intro hlt
    unfold reschedule_route
    rw [if_neg (by simp [hds, hts]), hpd, hpt]
    dsimp only
    rw [if_pos hlt]

/-- Witness for C5: with today 2026-10-12, booking for yesterday fails with
the past-date error and booking for today replies 201. -/
theorem appointment_past_date_rule_witness :
    (book_route [] { id := 1, role := "patient" } "2" "2026-10-11" "10:00" "visit"
        "routine" { year := 2026, month := 10, day := 12 } "A1" 0).1
      = (400, "Cannot book appointments in the past")
    ∧ (book_route [] { id := 1, role := "patient" } "2" "2026-10-12" "10:00" "visit"
        "routine" { year := 2026, month := 10, day := 12 } "A1" 0).1.1 = 201 := by
  constructor
  · exact (appointment_past_date_rule [] { id := 1, role := "patient" } "X" "2"
      "2026-10-11" "10:00" "visit" "routine" { year := 2026, month := 10, day := 12 }
      "A1" 0 { year := 2026, month := 10, day := 11 } (10, 0)
      (by decide) (by decide) (by decide) (by decide) (by decide) (by decide)).1.mpr
      (by decide)
  · exact (appointment_past_date_rule [] { id := 1, role := "patient" } "X" "2"
      "2026-10-12" "10:00" "visit" "routine" { year := 2026, month := 10, day := 12 }
      "A1" 0 { year := 2026, month := 10, day := 12 } (10, 0)
      (by decide) (by decide) (by decide) (by decide) (by decide) (by decide)).2.2.1
      (by decide)

/-- A concrete scheduled appointment. -/
def schedAppt : Appt :=
  { id := "A1", patient_id := "1", doctor_id := "2",
    appointment_date := "2026-10-20", appointment_time := "10:00",
    reason := "checkup", urgency := "routine", status := "scheduled",
    notes := none, created_at := 0, updated_at := 0 }

/-- An unrestricted caller. -/
def adminUser : ApiUser := { id := 9, role := "admin" }

/-- C6 counterexample: both cancels of the same appointment reply 200, but
the state after the second cancel differs from the state after the first,
because the update refreshes updated_at on every call; so the second
cancel is not a state-level no-op. -/
theorem cancel_second_call_changes_state :
    (cancel_route [schedAppt] adminUser "A1" 1).1.1 = 200
    ∧ (cancel_route (cancel_route [schedAppt] adminUser "A1" 1).2 adminUser "A1" 2).1.1 = 200
    ∧ (cancel_route (cancel_route [schedAppt] adminUser "A1" 1).2 adminUser "A1" 2).2
        ≠ (cancel_route [schedAppt] adminUser "A1" 1).2 := by
  refine ⟨rfl, rfl, by decide⟩

/-- C6 as amended: cancel sets status to cancelled and replies 200; a
second cancel of the same appointment also replies 200 and leaves the
state of the first cancel unchanged except that the target document gets
updated_at refreshed to the second call time. -/
theorem cancel_idempotent_up_to_timestamp :
    ∀ (store : List Appt) (user : ApiUser) (aid : String) (n1 n2 : Int),
      (cancel_route store user aid n1).1.1 = 200 →
      (cancel_route (cancel_route store user aid n1).2 user aid n2).1.1 = 200
      ∧ (cancel_route (cancel_route store user aid n1).2 user aid n2).2
          = ((cancel_route store user aid n1).2).map
              (fun a => if a.id == aid then cancel_update a n2 else a)
      ∧ ∀ a ∈ (cancel_route store user aid n1).2, a.id = aid → a.status = "cancelled" := by
  intro store user aid n1 n2 h200
  unfold cancel_route at h200
  rcases hf : store.find? (fun a => a.id == aid) with _ | appt
  · rw [hf] at h200
    simp at h200
  rw [hf] at h200
  dsimp only at h200
  by_cases hp1 : (user.role == "patient" && !(appt.patient_id == toString user.id)) = true
  · rw [if_pos hp1] at h200
    simp at h200
  rw [if_neg hp1] at h200
  by_cases hp2 : (user.role == "doctor" && !(appt.doctor_id == toString user.id)) = true
  · rw [if_pos hp2] at h200
    simp at h200
  rw [if_neg hp2] at h200
  have hs1 : (cancel_route store user aid n1).2
      = store.map (fun b => if b.id == aid then cancel_update b n1 else b) := by
    unfold cancel_route
    rw [hf]
    dsimp only
    rw [if_neg hp1, if_neg hp2]
    unfold cancel_appointment update_appointment
    rw [hf]
  have hpa : (appt.id == aid) = true := by simpa using List.find?_some hf
  have hfind1 : ((cancel_route store user aid n1).2).find? (fun a => a.id == aid)
      = some (cancel_update appt n1) := by
    rw [hs1, List.find?_map]
    have hpre : ((fun (a : Appt) => a.id == aid)
        ∘ (fun b => if b.id == aid then cancel_update b n1 else b))
        = (fun (b : Appt) => b.id == aid) := by
      funext b
      simp only [Function.comp_apply]
      by_cases hb : (b.id == aid) = true
      · rw [if_pos hb]
        rfl
      · rw [if_neg hb]
    rw [hpre, hf]
    simp only [Option.map_some']
    rw [if_pos hpa]
  generalize hgen : (cancel_route store user aid n1).2 = s1 at hs1 hfind1 ⊢
  refine ⟨?_, ?_, ?_⟩
  · unfold cancel_route
    rw [hfind1]
    dsimp only
    rw [show (cancel_update appt n1).patient_id = appt.patient_id from rfl,
        show (cancel_update appt n1).doctor_id = appt.doctor_id from rfl,
        if_neg hp1, if_neg hp2]
  · unfold cancel_route
    rw [hfind1]
    dsimp only
    rw [show (cancel_update appt n1).patient_id = appt.patient_id from rfl,
        show (cancel_update appt n1).doctor_id = appt.doctor_id from rfl,
        if_neg hp1, if_neg hp2]
    unfold cancel_appointment update_appointment
    rw [hfind1]
  · rw [hs1]
    intro a ha haid
    obtain ⟨b, hb, rfl⟩ := List.mem_map.mp ha
    by_cases hbid : (b.id == aid) = true
    · rw [if_pos hbid]
      rfl
    · rw [if_neg hbid] at haid ⊢
      exact absurd (by rw [haid]; exact beq_self_eq_true aid) hbid

/-- Witness for the amended C6 at the concrete appointment. -/
theorem cancel_idempotent_up_to_timestamp_witness :
    (cancel_route (cancel_route [schedAppt] adminUser "A1" 1).2 adminUser "A1" 2).1.1 = 200
    ∧ (cancel_route (cancel_route [schedAppt] adminUser "A1" 1).2 adminUser "A1" 2).2
        = ((cancel_route [schedAppt] adminUser "A1" 1).2).map
            (fun a => if a.id == "A1" then cancel_update a 2 else a)
    ∧ ∀ a ∈ (cancel_route [schedAppt] adminUser "A1" 1).2, a.id = "A1" → a.status = "cancelled" :=
  cancel_idempotent_up_to_timestamp [schedAppt] adminUser "A1" 1 2 (by decide)

/-- str.strip on a String. -/
def pyStripStr (s : String) : String := String.mk (pyStrip s.toList)

/-- validate_patient_data (validation.py lines 3-52): range and enumeration
checks, collecting the error messages in source order; fields are always
present here since the route has already checked the eleven keys. -/
def validate_patient_data (d : PatientCreateData) : List String :=
  (if d.age < 0 ∨ d.age > 120 then ["Age must be between 0 and 120"] else [])
  ++ (if d.bmi < 10 ∨ d.bmi > 60 then ["BMI must be between 10 and 60"] else [])
  ++ (if d.avg_glucose_level < 50 ∨ d.avg_glucose_level > 300 then
        ["Glucose level must be between 50 and 300"] else [])
  ++ (if d.hypertension ≠ 0 ∧ d.hypertension ≠ 1 then ["Hypertension must be 0 or 1"] else [])
  ++ (if d.heart_disease ≠ 0 ∧ d.heart_disease ≠ 1 then ["Heart disease must be 0 or 1"] else [])
  ++ (if d.stroke ≠ 0 ∧ d.stroke ≠ 1 then ["Stroke must be 0 or 1"] else [])
  ++ (if d.gender ≠ "Male" ∧ d.gender ≠ "Female" ∧ d.gender ≠ "Other" then
        ["Gender must be one of: Male, Female, Other"] else [])
  ++ (if d.work_type ≠ "Private" ∧ d.work_type ≠ "Self-employed" ∧ d.work_type ≠ "Govt_job"
        ∧ d.work_type ≠ "Children" ∧ d.work_type ≠ "Never_worked" then
        ["Work type must be one of: Private, Self-employed, Govt_job, Children, Never_worked"] else [])
  ++ (if d.smoking_status ≠ "Never smoked" ∧ d.smoking_status ≠ "Smokes"
        ∧ d.smoking_status ≠ "Formerly smoked" ∧ d.smoking_status ≠ "Unknown" then
        ["Smoking status must be one of: Never smoked, Smokes, Formerly smoked, Unknown"] else [])

/-- The body of a self-registration request (patients.py lines 102-158):
credentials plus the eleven patient input fields. -/
structure SelfRegRequest where
  username : String
  email : String
  password : String
  first_name : String
  last_name : String
  phone : String
  patient : PatientCreateData
deriving DecidableEq

/-- The users row created by self-registration (patients.py lines 160-168):
stripped username and email, sanitized names, role patient.  A falsy phone
is stored as the empty string, conflating the None of the source. -/
def mkSelfRegUser (r : SelfRegRequest) (newId : Int) (now : Int) : AuthUser :=
  { id := newId, username := pyStripStr r.username, email := pyStripStr r.email,
    password_hash := hashPassword r.password, role := "patient",
    first_name := sanitize_input (pyStripStr r.first_name),
    last_name := sanitize_input (pyStripStr r.last_name),
    phone := if r.phone = "" then "" else sanitize_input r.phone,
    specialization := none, license_number := none,
    is_active := true, created_at := now, last_login := none }

/-- The self-register route (patients.py lines 102-200): validations in
source order, creation and commit of the user, then the patient-record
step; patientResult models the outcome of patient_service.create_patient —
none stands for an exception or a falsy returned id (lines 180-197), in
which case the route deletes the just-created user and replies 500. -/
def self_register (users : List AuthUser) (patients : List PatientSQLite)
    (r : SelfRegRequest) (newUserId : Int) (patientResult : Option Int)
    (now : Int) : (Nat × String) × List AuthUser × List PatientSQLite :=
  if r.username = "" then ((400, "username is required"), users, patients)
  else if r.password = "" then ((400, "password is required"), users, patients)
  else if r.email = "" then ((400, "email is required"), users, patients)
  else if r.first_name = "" then ((400, "first_name is required"), users, patients)
  else if r.last_name = "" then ((400, "last_name is required"), users, patients)
  else
    let username := pyStripStr r.username
    if username = "" then ((400, "Username is required"), users, patients)
    else if sanitize_input username ≠ username ∨ username.toList.contains ' ' then
      ((400, "Username cannot contain spaces or invalid characters"), users, patients)
    else if username.length < 3 then
      ((400, "Username must be at least 3 characters"), users, patients)
    else if (users.find? (fun u => u.username == username)).isSome then
      ((409, "Username already exists"), users, patients)
    else
      let email := pyStripStr r.email
      if email = "" ∨ !(validate_email email) then
        ((400, "Valid email is required"), users, patients)
      else if (users.find? (fun u => u.email == email)).isSome then
        ((409, "Email already exists"), users, patients)
      else if !((validate_password r.password).1) then
        ((400, (validate_password r.password).2), users, patients)
      else if validate_patient_data r.patient ≠ [] then
        ((400, "Validation errors"), users, patients)
      else if sanitize_input (pyStripStr r.first_name) = ""
          ∨ sanitize_input (pyStripStr r.last_name) = "" then
        ((400, "First name and last name are required"), users, patients)
      else
        match patientResult with
        | none => ((500, "Failed to register patient"), users, patients)
        | some pid =>
          ((201, "Patient self-registration submitted successfully"),
           users ++ [mkSelfRegUser r newUserId now],
           patients ++ [create_patient_sqlite
             { r.patient with created_by := some newUserId, assigned_doctor_id := none }
             pid now])

/-- C9: self-registration is atomic over its two steps: either it replies
201 and exactly the one new Identity (and the one new PatientRecord) is
persisted, or it does not reply 201 — any validation failure, and in
particular a failed patient-record creation after the Identity commit, in
which case the route deletes the Identity again — and the user store is
left exactly as it was, so no orphaned Identity remains. -/
theorem self_register_no_orphan_identity :
    ∀ (users : List AuthUser) (patients : List PatientSQLite) (r : SelfRegRequest)
      (newUserId : Int) (patientResult : Option Int) (now : Int),
      ((self_register users patients r newUserId patientResult now).1.1 = 201
        ∧ (self_register users patients r newUserId patientResult now).2.1
            = users ++ [mkSelfRegUser r newUserId now]
        ∧ patientResult.isSome = true)
      ∨ ((self_register users patients r newUserId patientResult now).1.1 ≠ 201
        ∧ (self_register users patients r newUserId patientResult now).2.1 = users) := by
  intro users patients r newUserId patientResult now
  unfold self_register
  by_cases c1 : r.username = ""
  · rw [if_pos c1]; exact Or.inr ⟨by simp, rfl⟩
  rw [if_neg c1]
  by_cases c2 : r.password = ""
  · rw [if_pos c2]; exact Or.inr ⟨by simp, rfl⟩
  rw [if_neg c2]
  by_cases c3 : r.email = ""
  · rw [if_pos c3]; exact Or.inr ⟨by simp, rfl⟩
  rw [if_neg c3]
  by_cases c4 : r.first_name = ""
  · rw [if_pos c4]; exact Or.inr ⟨by simp, rfl⟩
  rw [if_neg c4]
  by_cases c5 : r.last_name = ""
  · rw [if_pos c5]; exact Or.inr ⟨by simp, rfl⟩
  rw [if_neg c5]
  dsimp only
  by_cases c6 : pyStripStr r.username = ""
  · rw [if_pos c6]; exact Or.inr ⟨by simp, rfl⟩
  rw [if_neg c6]
  by_cases c7 : sanitize_input (pyStripStr r.username) ≠ pyStripStr r.username
      ∨ (pyStripStr r.username).toList.contains ' ' = true
  · rw [if_pos c7]; exact Or.inr ⟨by simp, rfl⟩
  rw [if_neg c7]
  by_cases c8 : (pyStripStr r.username).length < 3
  · rw [if_pos c8]; exact Or.inr ⟨by simp, rfl⟩
  rw [if_neg c8]
  by_cases c9 : (users.find? (fun u => u.username == pyStripStr r.username)).isSome = true
  · rw [if_pos c9]; exact Or.inr ⟨by simp, rfl⟩
  rw [if_neg c9]
  by_cases c10 : pyStripStr r.email = "" ∨ (!(validate_email (pyStripStr r.email))) = true
  · rw [if_pos c10]; exact Or.inr ⟨by simp, rfl⟩
  rw [if_neg c10]
  by_cases c11 : (users.find? (fun u => u.email == pyStripStr r.email)).isSome = true
  · rw [if_pos c11]; exact Or.inr ⟨by simp, rfl⟩
  rw [if_neg c11]
  by_cases c12 : (!((validate_password r.password).1)) = true
  · rw [if_pos c12]; exact Or.inr ⟨by simp, rfl⟩
  rw [if_neg c12]
  by_cases c13 : validate_patient_data r.patient ≠ []
  · rw [if_pos c13]; exact Or.inr ⟨by simp, rfl⟩
  rw [if_neg c13]
  by_cases c14 : sanitize_input (pyStripStr r.first_name) = ""
      ∨ sanitize_input (pyStripStr r.last_name) = ""
  · rw [if_pos c14]; exact Or.inr ⟨by simp, rfl⟩
  rw [if_neg c14]
  cases patientResult with
  | none => exact Or.inr ⟨by simp, rfl⟩
  | some pid => exact Or.inl ⟨rfl, rfl, rfl⟩
